import Mathlib

/-!
# esp-wifi-led: wireless association retry machine and the toggle server

A shallow embedding of `main/wifi-led.c` and `main/responses.c`.

* C `int` values are `Int`; no arithmetic in the program can overflow
  (`ap_retries` is only incremented below `MAX_RETRIES`, `gpio_state` is 0 or 1).
* `EventBits_t` values are `Nat` with the bitwise operators of the source.
* Bytes are `Nat` values below 256; a buffer is a `List Nat`.
* Calls into ESP-IDF, lwIP and the GPIO driver are recorded in call traces, so
  that "how many association attempts" and "what was written to the pin" are
  observable.
-/

namespace WifiLed

/-! ## Constants of `wifi-led.c` -/

/-- Macro `#define MAX_RETRIES 10` -/
def MAX_RETRIES : Int := 10
/-- Macro `#define WIFI_FAILURE 1 << 0` -/
def WIFI_FAILURE : Nat := 1 <<< 0
/-- Macro `#define WIFI_SUCCESS 1 << 1` -/
def WIFI_SUCCESS : Nat := 1 <<< 1
/-- Macro `#define TCP_FAILURE 1 << 0` -/
def TCP_FAILURE : Nat := 1 <<< 0
/-- Macro `#define TCP_SUCCESS 1 << 1` -/
def TCP_SUCCESS : Nat := 1 <<< 1
/-- Macro `#define BUF_SIZE 4096` -/
def BUF_SIZE : Nat := 4096
/-- Macro `#define LED_PIN 2` -/
def LED_PIN : Nat := 2
/-- Macro `#define SERVER_PORT 80` -/
def SERVER_PORT : Nat := 80

/-! ## Event identifiers (ESP-IDF enumerations `wifi_event_t`, `ip_event_t`) -/

/-- Value of `WIFI_EVENT_STA_START` in `esp_wifi_types.h`. -/
def WIFI_EVENT_STA_START : Int := 2
/-- Value of `WIFI_EVENT_STA_DISCONNECTED` in `esp_wifi_types.h`. -/
def WIFI_EVENT_STA_DISCONNECTED : Int := 5
/-- Value of `IP_EVENT_STA_GOT_IP` in `esp_netif_types.h`. -/
def IP_EVENT_STA_GOT_IP : Int := 0

/-- The two event bases the program registers handlers for. -/
inductive EventBase where
  | WIFI_EVENT
  | IP_EVENT
  deriving DecidableEq, Repr

/-- An event posted to the default event loop: its base and its identifier. -/
structure Event where
  base : EventBase
  event_id : Int
  deriving DecidableEq, Repr

/-- Station started. -/
def staStart : Event := ⟨EventBase.WIFI_EVENT, WIFI_EVENT_STA_START⟩
/-- Station disconnected from the access point. -/
def staDisconnected : Event := ⟨EventBase.WIFI_EVENT, WIFI_EVENT_STA_DISCONNECTED⟩
/-- Station acquired an address. -/
def gotIp : Event := ⟨EventBase.IP_EVENT, IP_EVENT_STA_GOT_IP⟩

/-! ## State touched by the two handlers -/

/-- Calls the handlers make into ESP-IDF / FreeRTOS. -/
inductive WifiCall where
  | esp_wifi_connect
  | xEventGroupSetBits (bits : Nat)
  deriving DecidableEq, Repr

/-- The static `ap_retries`, the bits of `wifi_event_group`, and the calls made so far. -/
structure WifiState where
  ap_retries : Int
  event_bits : Nat
  calls : List WifiCall
  deriving DecidableEq, Repr

/-- State when `wifi_connect` starts waiting: `static int ap_retries = 0`, a fresh
event group (`xEventGroupCreate` gives all bits clear), no call made yet. -/
def wifiInit : WifiState := ⟨0, 0, []⟩

/-- Call of `esp_wifi_connect()` as seen by the program: one more association attempt. -/
def esp_wifi_connect (s : WifiState) : WifiState :=
  { s with calls := s.calls ++ [WifiCall.esp_wifi_connect] }

/-- Call of `xEventGroupSetBits(wifi_event_group, bits)`: or the bits into the group. -/
def xEventGroupSetBits (bits : Nat) (s : WifiState) : WifiState :=
  { s with event_bits := s.event_bits ||| bits,
           calls := s.calls ++ [WifiCall.xEventGroupSetBits bits] }

/-- Function `wifi_event_handler` (wifi-led.c lines 35-48). -/
def wifi_event_handler (event_id : Int) (s : WifiState) : WifiState :=
  if event_id = WIFI_EVENT_STA_START then
    esp_wifi_connect s
  else if event_id = WIFI_EVENT_STA_DISCONNECTED then
    if s.ap_retries < MAX_RETRIES then
      let s1 := esp_wifi_connect s
      { s1 with ap_retries := s1.ap_retries + 1 }
    else
      xEventGroupSetBits WIFI_FAILURE s
  else
    s

/-- Function `ip_reg_event_handler` (wifi-led.c lines 50-57). -/
def ip_reg_event_handler (event_id : Int) (s : WifiState) : WifiState :=
  if event_id = IP_EVENT_STA_GOT_IP then
    xEventGroupSetBits WIFI_SUCCESS { s with ap_retries := 0 }
  else
    s

/-- Dispatch of one event by the default event loop, following the two registrations
of `wifi_connect`: `wifi_event_handler` for `WIFI_EVENT` with `ESP_EVENT_ANY_ID`,
`ip_reg_event_handler` for `IP_EVENT` with `IP_EVENT_STA_GOT_IP` only. -/
def dispatch (e : Event) (s : WifiState) : WifiState :=
  match e.base with
  | EventBase.WIFI_EVENT => wifi_event_handler e.event_id s
  | EventBase.IP_EVENT =>
    if e.event_id = IP_EVENT_STA_GOT_IP then ip_reg_event_handler e.event_id s else s

/-- The handlers applied to a sequence of events, in order. -/
def runEvents (evs : List Event) (s : WifiState) : WifiState :=
  evs.foldl (fun st e => dispatch e st) s

/-- Number of `esp_wifi_connect` calls made so far. -/
def attempts (s : WifiState) : Nat :=
  s.calls.count WifiCall.esp_wifi_connect

/-- Call of `xEventGroupWaitBits(group, mask, pdFALSE, pdFALSE, portMAX_DELAY)`: block until a bit of
`mask` is set, events being handled meanwhile; the result is the group's bits at that
moment, with the state reached. `none`: the events ran out with no bit of `mask` set, the
caller is still blocked. -/
def xEventGroupWaitBits (mask : Nat) : List Event → WifiState → Option (Nat × WifiState)
  | [], s => if s.event_bits &&& mask ≠ 0 then some (s.event_bits, s) else none
  | e :: evs, s =>
    if s.event_bits &&& mask ≠ 0 then some (s.event_bits, s)
    else xEventGroupWaitBits mask evs (dispatch e s)

/-- The status computed by `wifi_connect` from the bits the wait returned
(wifi-led.c lines 93-101). -/
def wifi_connect_status (event_bits : Nat) : Int :=
  if event_bits &&& WIFI_SUCCESS ≠ 0 then (WIFI_SUCCESS : Nat)
  else if event_bits &&& WIFI_FAILURE ≠ 0 then (WIFI_FAILURE : Nat)
  else (WIFI_FAILURE : Nat)

/-- Function `wifi_connect` (wifi-led.c lines 59-108) against a stream of events: the value it
returns, or `none` while it is still blocked in the wait. The `ESP_ERROR_CHECK`ed setup
calls are taken to succeed. -/
def wifi_connect (evs : List Event) : Option Int :=
  (xEventGroupWaitBits (WIFI_SUCCESS ||| WIFI_FAILURE) evs wifiInit).map
    (fun r => wifi_connect_status r.1)

/-! ## `responses.c` and C strings -/

/-- The bytes of a string literal of the source. -/
def bytes (s : String) : List Nat := s.toList.map Char.toNat

/-- A string literal as C stores it: its bytes followed by the terminating zero byte. -/
def literal (s : String) : List Nat := bytes s ++ [0]

/-- Constant `INDEX_PAGE_RESPONSE` (responses.c lines 3-8). -/
def INDEX_PAGE_RESPONSE : List Nat :=
  literal ("HTTP/1.1 200 OK\r\n" ++ "Content-Length: 50\r\n" ++ "Content-Type: text/html\r\n" ++
    "\r\n" ++ "<button onclick=\"fetch('/toggle')\">Toggle</button>")

/-- Constant `TOGGLE_RESPONSE` (responses.c lines 10-13). -/
def TOGGLE_RESPONSE : List Nat :=
  literal ("HTTP/1.1 200\r\n" ++ "Content-Length: 0\r\n" ++ "\r\n")

/-- The C string that starts at the first byte of `mem`: the bytes before the first zero
byte. -/
def cstring (mem : List Nat) : List Nat := mem.takeWhile (fun b => b != 0)

/-- Library function `strlen`: the length of the C string at `mem`. -/
def strlen (mem : List Nat) : Nat := (cstring mem).length

/-- Does `l` begin with the bytes of `needle`? -/
def startsWith : List Nat → List Nat → Bool
  | _, [] => true
  | [], _ :: _ => false
  | a :: l, b :: needle => a == b && startsWith l needle

/-- Offset of the first place in `l` where `needle` begins; `none` when there is none. -/
def findFirst : List Nat → List Nat → Option Nat
  | [], needle => if startsWith [] needle then some 0 else none
  | a :: l, needle =>
    if startsWith (a :: l) needle then some 0 else (findFirst l needle).map (fun i => i + 1)

/-- Library function `strstr(haystack, needle)`: both arguments are read as C strings, so
the search covers the bytes of `haystack` before its first zero byte only, and it runs on
through memory until it meets one. `some i`: a pointer to offset `i`; `none`: `NULL`. -/
def strstr (haystack needle : List Nat) : Option Nat :=
  findFirst (cstring haystack) (cstring needle)

/-! ## The LED and the server loop -/

/-- The static `gpio_state` and the `gpio_set_level(pin, level)` calls made so far, oldest
first. -/
structure Device where
  gpio_state : Int
  levels : List (Nat × Int)
  deriving DecidableEq, Repr

/-- Call of `gpio_set_level(pin, level)`. -/
def gpio_set_level (pin : Nat) (level : Int) (d : Device) : Device :=
  { d with levels := d.levels ++ [(pin, level)] }

/-- The device after the initialisation of `app_main` (wifi-led.c lines 185-188):
`static int gpio_state = 0` and `gpio_set_level(LED_PIN, 0)`. -/
def bootDevice : Device := gpio_set_level LED_PIN 0 ⟨0, []⟩

/-- One accepted connection as the loop body meets it. `heap` lists the bytes of memory
from the address `malloc(BUF_SIZE)` returns onward, as they are before the read (C leaves
the contents of a fresh allocation unspecified); `request` lists the bytes the single
`read` call delivers. -/
structure Client where
  client_fd : Int
  heap : List Nat
  request : List Nat
  deriving DecidableEq, Repr

/-- Memory at `read_buf` after `read(client_fd, read_buf, BUF_SIZE)`: at most `BUF_SIZE`
bytes of the request overwrite the start, the bytes behind them stay as they were. The
source neither uses the count `read` returns nor stores a terminating zero byte. -/
def read (c : Client) : List Nat :=
  c.request.take BUF_SIZE ++ c.heap.drop (min c.request.length BUF_SIZE)

/-- Call of `write(fd, p, strlen(p))`: the bytes handed to the client. -/
def write (p : List Nat) : List Nat := p.take (strlen p)

/-- The body of the server loop after a successful `accept` (wifi-led.c lines 146-157): the
device afterwards and the bytes written to the client. -/
def serve_client (c : Client) (d : Device) : Device × List Nat :=
  let read_buf := read c
  if (strstr read_buf (literal "toggle")).isSome then
    let d1 : Device := { d with gpio_state := if d.gpio_state = 0 then 1 else 0 }
    let d2 := gpio_set_level LED_PIN d1.gpio_state d1
    (d2, write TOGGLE_RESPONSE)
  else
    (d, write INDEX_PAGE_RESPONSE)

/-- How a run of `tcp_run_server` stands when its inputs are used up. -/
inductive Ended where
  | returned (status : Int)
  | exited (status : Int)
  | accepting
  deriving DecidableEq, Repr

/-- What a run of `tcp_run_server` has done: the device, the number of `accept` calls made,
the responses written (oldest first, with the descriptor), and how it stands. -/
structure Run where
  device : Device
  accept_calls : Nat
  sent : List (Int × List Nat)
  ended : Ended
  deriving DecidableEq, Repr

/-- The `for (;;)` loop of `tcp_run_server` (wifi-led.c lines 136-158) over the successive
results of `accept`; `Ended.accepting` when the loop is blocked in `accept` with no further
connection to come. -/
def accept_loop : List Client → Run → Run
  | [], r => { r with accept_calls := r.accept_calls + 1, ended := Ended.accepting }
  | c :: cs, r =>
    let r1 := { r with accept_calls := r.accept_calls + 1 }
    if c.client_fd < 0 then
      { r1 with ended := Ended.returned (TCP_FAILURE : Nat) }
    else
      let out := serve_client c r1.device
      accept_loop cs { r1 with device := out.1, sent := r1.sent ++ [(c.client_fd, out.2)] }

/-- The results of the socket calls of one run of `tcp_run_server`. -/
structure Net where
  socket_ret : Int
  bind_ret : Int
  listen_ret : Int
  clients : List Client
  deriving DecidableEq, Repr

/-- Function `tcp_run_server` (wifi-led.c lines 110-161). -/
def tcp_run_server (net : Net) (d : Device) : Run :=
  if net.socket_ret < 0 then
    ⟨d, 0, [], Ended.returned (TCP_FAILURE : Nat)⟩
  else if net.bind_ret ≠ 0 then
    ⟨d, 0, [], Ended.returned (TCP_FAILURE : Nat)⟩
  else if net.listen_ret ≠ 0 then
    ⟨d, 0, [], Ended.exited 0⟩
  else
    accept_loop net.clients ⟨d, 0, [], Ended.accepting⟩

/-- How `app_main` stands when its inputs are used up. -/
inductive AppEnded where
  | waiting_for_wifi
  | error_state
  | exited (status : Int)
  | accepting
  | returned
  deriving DecidableEq, Repr

/-- Function `app_main` (wifi-led.c lines 181-205), up to the point where it enters `error_state`,
leaves the process, blocks, or returns. -/
def app_main (evs : List Event) (net : Net) : AppEnded × Option Run :=
  match wifi_connect evs with
  | none => (AppEnded.waiting_for_wifi, none)
  | some status =>
    if status ≠ (WIFI_SUCCESS : Nat) then (AppEnded.error_state, none)
    else
      let r := tcp_run_server net bootDevice
      match r.ended with
      | Ended.exited code => (AppEnded.exited code, some r)
      | Ended.accepting => (AppEnded.accepting, some r)
      | Ended.returned st =>
        if st ≠ (TCP_SUCCESS : Nat) then (AppEnded.error_state, some r)
        else (AppEnded.returned, some r)

/-- Devices the server loop can be in: the device `app_main` initialised, and any device
reached from one of those by serving a request. -/
inductive Reachable : Device → Prop where
  | boot : Reachable bootDevice
  | serve (c : Client) (d : Device) : Reachable d → Reachable (serve_client c d).1

/-! ## Spec-side vocabulary -/

/-- The request contains the command token somewhere. -/
def ContainsToggle (request : List Nat) : Prop :=
  ∃ pre post : List Nat, request = pre ++ bytes "toggle" ++ post

/-- The request contains the command token with no zero byte in front of it. -/
def ToggleBeforeZero (request : List Nat) : Prop :=
  ∃ pre post : List Nat, request = pre ++ bytes "toggle" ++ post ∧ 0 ∉ pre

/-- The level most recently written to the LED pin, if any. -/
def lastLevel (d : Device) : Option Int :=
  ((d.levels.filter (fun w => w.1 == LED_PIN)).getLast?).map (fun w => w.2)

/-- Length of the header section of an HTTP message: the offset just behind the first
blank line (CR LF CR LF). -/
def headerLength (message : List Nat) : Option Nat :=
  (findFirst message (bytes "\r\n\r\n")).map (fun i => i + 4)

/-- The bytes of an HTTP message that follow its header section. -/
def body (message : List Nat) : Option (List Nat) :=
  (headerLength message).map (fun n => message.drop n)

/-- Value of a run of ASCII decimal digits. -/
def decimal (digits : List Nat) : Nat :=
  digits.foldl (fun n b => 10 * n + (b - 48)) 0

/-- The number the Content-Length header of an HTTP message declares. -/
def declaredContentLength (message : List Nat) : Option Nat :=
  (findFirst message (bytes "Content-Length: ")).map
    (fun i => decimal ((message.drop (i + 16)).takeWhile (fun b => 48 ≤ b && b ≤ 57)))

/-- The retry counter is within its bounds. -/
def RetriesBounded (s : WifiState) : Prop := 0 ≤ s.ap_retries ∧ s.ap_retries ≤ MAX_RETRIES

/-! ## The association retry machine -/

theorem dispatch_bounded (e : Event) (s : WifiState) (h : RetriesBounded s) :
    RetriesBounded (dispatch e s) := by
  obtain ⟨h0, h1⟩ := h
  unfold dispatch
  cases e.base with
  | WIFI_EVENT =>
    simp only [wifi_event_handler]
    split_ifs with a b c
    · exact ⟨h0, h1⟩
    · constructor
      · show 0 ≤ s.ap_retries + 1
        omega
      · show s.ap_retries + 1 ≤ MAX_RETRIES
        unfold MAX_RETRIES at c ⊢
        omega
    · exact ⟨h0, h1⟩
    · exact ⟨h0, h1⟩
  | IP_EVENT =>
    simp only [ip_reg_event_handler]
    split_ifs
    · constructor
      · show (0 : Int) ≤ 0
        omega
      · show (0 : Int) ≤ MAX_RETRIES
        unfold MAX_RETRIES
        omega
    · exact ⟨h0, h1⟩

theorem runEvents_bounded (evs : List Event) (s : WifiState) (h : RetriesBounded s) :
    RetriesBounded (runEvents evs s) := by
  induction evs generalizing s with
  | nil => exact h
  | cons e evs ih => exact ih (dispatch e s) (dispatch_bounded e s h)

theorem wifiInit_bounded : RetriesBounded wifiInit := by
  unfold RetriesBounded wifiInit MAX_RETRIES
  constructor <;> simp

theorem sets_failure_iff (e : Event) (s : WifiState) (h : RetriesBounded s) :
    (dispatch e s).calls = s.calls ++ [WifiCall.xEventGroupSetBits WIFI_FAILURE]
      ↔ e = staDisconnected ∧ s.ap_retries = 10 := by
  obtain ⟨h0, h1⟩ := h
  unfold MAX_RETRIES at h1
  obtain ⟨base, id⟩ := e
  cases base with
  | WIFI_EVENT =>
    simp only [dispatch, wifi_event_handler, staDisconnected]
    split_ifs with a b c
    · subst a
      simp [esp_wifi_connect, WIFI_EVENT_STA_START, WIFI_EVENT_STA_DISCONNECTED]
    · subst b
      unfold MAX_RETRIES at c
      simp [esp_wifi_connect]
      omega
    · subst b
      unfold MAX_RETRIES at c
      simp [xEventGroupSetBits]
      omega
    · simp
      intro hid
      exact absurd hid b
  | IP_EVENT =>
    simp only [dispatch, ip_reg_event_handler, staDisconnected]
    split_ifs with a
    · simp [xEventGroupSetBits, WIFI_SUCCESS, WIFI_FAILURE]
    · simp

/-- C9: after any finite sequence of events handled from `ap_retries = 0`, the counter is
between 0 and 10; and in the state so reached an event makes the handlers set the failure
bit exactly when it is a station-disconnected event met with `ap_retries = 10`. -/
theorem retries_bounded_and_failure_only_at_max (evs : List Event) (e : Event) :
    0 ≤ (runEvents evs wifiInit).ap_retries ∧ (runEvents evs wifiInit).ap_retries ≤ 10 ∧
    ((dispatch e (runEvents evs wifiInit)).calls =
        (runEvents evs wifiInit).calls ++ [WifiCall.xEventGroupSetBits WIFI_FAILURE]
      ↔ e = staDisconnected ∧ (runEvents evs wifiInit).ap_retries = 10) := by
  have hb := runEvents_bounded evs wifiInit wifiInit_bounded
  exact ⟨hb.1, hb.2, sets_failure_iff e _ hb⟩

/-- C3, as the code has it: after the station-started event and eleven consecutive
station-disconnected events the failure bit is set and `wifi_connect` returns
`WIFI_FAILURE`, eleven association attempts having been made (the first and ten retries);
after the station-started event and at most ten station-disconnected events no outcome bit
is set. -/
theorem failure_after_eleven_disconnects :
    (runEvents (staStart :: List.replicate 11 staDisconnected) wifiInit).event_bits
        &&& WIFI_FAILURE ≠ 0 ∧
    attempts (runEvents (staStart :: List.replicate 11 staDisconnected) wifiInit) = 11 ∧
    wifi_connect (staStart :: List.replicate 11 staDisconnected) = some (WIFI_FAILURE : Nat) ∧
    ∀ k : Fin 11,
      (runEvents (staStart :: List.replicate k.val staDisconnected) wifiInit).event_bits = 0 := by
  decide

/-- C3 fails as stated: after the station-started event and exactly ten station-disconnected
events the failure bit is clear, `wifi_connect` is still waiting, and eleven association
attempts have been made. -/
theorem ten_disconnects_no_failure :
    (runEvents (staStart :: List.replicate 10 staDisconnected) wifiInit).event_bits
        &&& WIFI_FAILURE = 0 ∧
    wifi_connect (staStart :: List.replicate 10 staDisconnected) = none ∧
    attempts (runEvents (staStart :: List.replicate 10 staDisconnected) wifiInit) = 11 ∧
    attempts (runEvents (staStart :: List.replicate 10 staDisconnected) wifiInit) ≠ 10 := by
  decide

/-- C4: for n from 0 to 9, station-started, n station-disconnected events and one
address-acquired event leave the success bit set, the failure bit clear and `ap_retries`
at 0, and `wifi_connect` returns `WIFI_SUCCESS`. -/
theorem success_after_up_to_nine_disconnects (n : Nat) (h : n ≤ 9) :
    (runEvents (staStart :: List.replicate n staDisconnected ++ [gotIp]) wifiInit).event_bits
        &&& WIFI_SUCCESS ≠ 0 ∧
    (runEvents (staStart :: List.replicate n staDisconnected ++ [gotIp]) wifiInit).event_bits
        &&& WIFI_FAILURE = 0 ∧
    (runEvents (staStart :: List.replicate n staDisconnected ++ [gotIp]) wifiInit).ap_retries = 0 ∧
    wifi_connect (staStart :: List.replicate n staDisconnected ++ [gotIp])
      = some (WIFI_SUCCESS : Nat) := by
  interval_cases n <;> decide

theorem success_after_up_to_nine_disconnects_witness :
    (9 : Nat) ≤ 9 ∧
    (runEvents (staStart :: List.replicate 9 staDisconnected ++ [gotIp]) wifiInit).ap_retries = 0 ∧
    wifi_connect (staStart :: List.replicate 9 staDisconnected ++ [gotIp])
      = some (WIFI_SUCCESS : Nat) :=
  ⟨by decide, (success_after_up_to_nine_disconnects 9 (by decide)).2.2.1,
    (success_after_up_to_nine_disconnects 9 (by decide)).2.2.2⟩

theorem and_two_ne_zero_iff (b : Nat) : b &&& 2 ≠ 0 ↔ b.testBit 1 = true := by
  constructor
  · intro h
    by_contra hb
    apply h
    apply Nat.eq_of_testBit_eq
    intro i
    rw [Nat.testBit_and, Nat.zero_testBit]
    by_cases hi : i = 1
    · subst hi
      simp [hb]
    · have : Nat.testBit 2 i = false := by
        have h2 : (2 : Nat) = 2 ^ 1 := rfl
        rw [h2, Nat.testBit_two_pow]
        simp
        omega
      simp [this]
  · intro h h0
    have := congrArg (fun x => Nat.testBit x 1) h0
    simp [Nat.testBit_and, h] at this
    revert this
    decide

/-- C8: for every value of the bits returned by the wait, `wifi_connect` computes
`WIFI_SUCCESS` when bit 1 (the success bit) is set, whatever the failure bit, and
`WIFI_FAILURE` when it is clear; so the status is `WIFI_SUCCESS` exactly when the success
bit is set. -/
theorem status_success_iff_success_bit (event_bits : Nat) :
    (wifi_connect_status event_bits = (WIFI_SUCCESS : Nat) ↔ event_bits.testBit 1 = true) ∧
    wifi_connect_status event_bits
      = (if event_bits.testBit 1 then ((WIFI_SUCCESS : Nat) : Int) else (WIFI_FAILURE : Nat)) ∧
    wifi_connect_status (WIFI_SUCCESS ||| WIFI_FAILURE) = (WIFI_SUCCESS : Nat) := by
  have key : wifi_connect_status event_bits
      = (if event_bits.testBit 1 then ((WIFI_SUCCESS : Nat) : Int) else (WIFI_FAILURE : Nat)) := by
    have h2 : WIFI_SUCCESS = 2 := rfl
    unfold wifi_connect_status
    rw [h2]
    by_cases hb : event_bits.testBit 1 = true
    · rw [if_pos ((and_two_ne_zero_iff event_bits).2 hb), if_pos hb]
    · rw [if_neg (fun h => hb ((and_two_ne_zero_iff event_bits).1 h)), if_neg hb]
      split_ifs <;> rfl
  refine ⟨?_, key, by decide⟩
  rw [key]
  by_cases hb : event_bits.testBit 1 = true
  · simp [hb]
  · simp [hb]
    decide


/-! ## The server loop -/

theorem startsWith_append (needle rest : List Nat) : startsWith (needle ++ rest) needle = true := by
  induction needle with
  | nil => cases rest <;> rfl
  | cons b needle ih => simp [startsWith, ih]

theorem findFirst_of_startsWith (l needle : List Nat) (h : startsWith l needle = true) :
    findFirst l needle = some 0 := by
  cases l <;> simp [findFirst, h]

theorem findFirst_isSome_append (pre needle rest : List Nat) :
    (findFirst (pre ++ (needle ++ rest)) needle).isSome = true := by
  induction pre with
  | nil =>
    rw [List.nil_append, findFirst_of_startsWith _ _ (startsWith_append needle rest)]
    rfl
  | cons a pre ih =>
    rw [List.cons_append]
    unfold findFirst
    split_ifs with h
    · rfl
    · cases hf : findFirst (pre ++ (needle ++ rest)) needle with
      | none => rw [hf] at ih; exact absurd ih (by decide)
      | some i => rfl

theorem cstring_append (pre rest : List Nat) (h : 0 ∉ pre) :
    cstring (pre ++ rest) = pre ++ cstring rest := by
  unfold cstring
  apply List.takeWhile_append_of_pos
  intro a ha
  have : a ≠ 0 := fun e => h (e ▸ ha)
  simpa using this

theorem strstr_finds (pre post rest : List Nat) (h : 0 ∉ pre) :
    (strstr (pre ++ bytes "toggle" ++ post ++ rest) (literal "toggle")).isSome = true := by
  have hn : cstring (literal "toggle") = bytes "toggle" := by decide
  have ht : (0 : Nat) ∉ bytes "toggle" := by decide
  unfold strstr
  rw [hn, List.append_assoc, List.append_assoc, cstring_append _ _ h, cstring_append _ _ ht]
  exact findFirst_isSome_append _ _ _

theorem serve_client_toggles (c : Client) (d : Device)
    (h : (strstr (read c) (literal "toggle")).isSome = true) :
    serve_client c d =
      (⟨if d.gpio_state = 0 then 1 else 0,
        d.levels ++ [(LED_PIN, if d.gpio_state = 0 then 1 else 0)]⟩,
       bytes "HTTP/1.1 200\r\nContent-Length: 0\r\n\r\n") := by
  have hw : write TOGGLE_RESPONSE = bytes "HTTP/1.1 200\r\nContent-Length: 0\r\n\r\n" := by
    decide
  unfold serve_client
  simp only [h, if_true, hw, gpio_set_level]

theorem read_of_short (c : Client) (h : c.request.length ≤ BUF_SIZE) :
    read c = c.request ++ c.heap.drop c.request.length := by
  unfold read
  rw [List.take_of_length_le h, Nat.min_eq_left h]

theorem serve_client_of_toggleBeforeZero (c : Client) (d : Device)
    (hlen : c.request.length ≤ BUF_SIZE) (htok : ToggleBeforeZero c.request) :
    serve_client c d =
      (⟨if d.gpio_state = 0 then 1 else 0,
        d.levels ++ [(LED_PIN, if d.gpio_state = 0 then 1 else 0)]⟩,
       bytes "HTTP/1.1 200\r\nContent-Length: 0\r\n\r\n") := by
  obtain ⟨pre, post, hreq, hpre⟩ := htok
  apply serve_client_toggles
  rw [read_of_short c hlen]
  rw [hreq]
  exact strstr_finds pre post _ hpre

theorem reachable_zero_or_one (d : Device) (h : Reachable d) :
    d.gpio_state = 0 ∨ d.gpio_state = 1 := by
  induction h with
  | boot => left; rfl
  | serve c d _ ih =>
    unfold serve_client
    simp only []
    split_ifs with a b
    · right; rfl
    · left; rfl
    · exact ih

theorem serve_client_lastLevel (c : Client) (d : Device)
    (h : lastLevel d = some d.gpio_state) :
    lastLevel (serve_client c d).1 = some (serve_client c d).1.gpio_state := by
  unfold serve_client
  by_cases a : (strstr (read c) (literal "toggle")).isSome = true
  · simp [a, lastLevel, gpio_set_level, List.filter_append]
  · simp only [a]
    exact h

/-- C1, as the code has it: for every request of at most 4096 bytes in which "toggle" occurs
with no zero byte in front of it, whatever the buffer held before the read, one iteration
of the loop flips `gpio_state` once (0 becomes 1, anything else 0), writes the new value to
the LED pin, and writes exactly the bytes of `TOGGLE_RESPONSE` to the client. -/
theorem toggle_request_flips (c : Client) (d : Device)
    (hlen : c.request.length ≤ 4096) (htok : ToggleBeforeZero c.request) :
    (serve_client c d).1.gpio_state = (if d.gpio_state = 0 then 1 else 0) ∧
    (serve_client c d).1.levels = d.levels ++ [(LED_PIN, (serve_client c d).1.gpio_state)] ∧
    (serve_client c d).2 = bytes "HTTP/1.1 200\r\nContent-Length: 0\r\n\r\n" ∧
    (serve_client c d).2 = write TOGGLE_RESPONSE := by
  have hw : write TOGGLE_RESPONSE = bytes "HTTP/1.1 200\r\nContent-Length: 0\r\n\r\n" := by
    decide
  rw [hw, serve_client_of_toggleBeforeZero c d hlen htok]
  exact ⟨rfl, rfl, rfl, rfl⟩

theorem toggle_request_flips_witness :
    (serve_client ⟨4, [], bytes "GET /toggle HTTP/1.1\r\n\r\n"⟩ bootDevice).1.gpio_state = 1 ∧
    (serve_client ⟨4, [], bytes "GET /toggle HTTP/1.1\r\n\r\n"⟩ bootDevice).2
      = bytes "HTTP/1.1 200\r\nContent-Length: 0\r\n\r\n" :=
  have h := toggle_request_flips ⟨4, [], bytes "GET /toggle HTTP/1.1\r\n\r\n"⟩ bootDevice
    (by decide) ⟨bytes "GET /", bytes " HTTP/1.1\r\n\r\n", by decide, by decide⟩
  ⟨h.1, h.2.2.1⟩

/-- C1 fails as stated: the seven-byte request made of a zero byte followed by "toggle"
contains the token, yet the iteration leaves `gpio_state` at 0, writes nothing to the pin
and answers with the index page, whatever the buffer held before. -/
theorem zero_byte_hides_toggle :
    ContainsToggle ([0] ++ bytes "toggle") ∧ ([0] ++ bytes "toggle").length ≤ 4096 ∧
    ∀ heap : List Nat,
      serve_client ⟨4, heap, [0] ++ bytes "toggle"⟩ bootDevice
        = (bootDevice, write INDEX_PAGE_RESPONSE) := by
  refine ⟨⟨[0], [], by decide⟩, by decide, ?_⟩
  intro heap
  have hs : strstr (read ⟨4, heap, [0] ++ bytes "toggle"⟩) (literal "toggle") = none := by
    have hr : read ⟨4, heap, [0] ++ bytes "toggle"⟩ = 0 :: (bytes "toggle" ++ heap.drop 7) := by
      have hl : ([0] ++ bytes "toggle").length ≤ BUF_SIZE := by decide
      rw [read_of_short _ hl]
      rfl
    rw [hr]
    rfl
  unfold serve_client
  simp only [hs]
  rfl

/-- C2 on the code: an empty read into a buffer whose stale bytes spell "toggle", and the
request "GET / HTTP/1.1" followed in the buffer by stale bytes that hold "toggle": neither
request contains the token, and both iterations flip `gpio_state`, write to the pin and
answer with `TOGGLE_RESPONSE`. -/
theorem stale_buffer_toggles :
    serve_client ⟨4, bytes "toggle" ++ [0], []⟩ bootDevice
      = (⟨1, [(LED_PIN, 0), (LED_PIN, 1)]⟩, write TOGGLE_RESPONSE) ∧
    serve_client ⟨4, bytes "POST /api/leds/v1/toggle HTTP/1.1\r\n\r\n" ++ [0],
        bytes "GET / HTTP/1.1\r\n\r\n"⟩ bootDevice
      = (⟨1, [(LED_PIN, 0), (LED_PIN, 1)]⟩, write TOGGLE_RESPONSE) ∧
    write TOGGLE_RESPONSE ≠ write INDEX_PAGE_RESPONSE := by
  decide

/-- C5 on the code: when `socket` or `bind` fails `tcp_run_server` returns `TCP_FAILURE`
with no `accept` call; when `listen` fails it calls `exit(0)`: nothing is returned, and
`app_main` does not reach `error_state`. -/
theorem listen_failure_exits :
    tcp_run_server ⟨3, 0, -1, []⟩ bootDevice = ⟨bootDevice, 0, [], Ended.exited 0⟩ ∧
    (app_main [staStart, gotIp] ⟨3, 0, -1, []⟩).1 = AppEnded.exited 0 ∧
    tcp_run_server ⟨-1, 0, 0, []⟩ bootDevice
      = ⟨bootDevice, 0, [], Ended.returned (TCP_FAILURE : Nat)⟩ ∧
    tcp_run_server ⟨3, -1, 0, []⟩ bootDevice
      = ⟨bootDevice, 0, [], Ended.returned (TCP_FAILURE : Nat)⟩ ∧
    (app_main [staStart, gotIp] ⟨3, -1, 0, []⟩).1 = AppEnded.error_state := by
  decide

/-- C6, as the code has it: from every reachable output state, serving two consecutive
requests of at most 4096 bytes, in each of which "toggle" occurs with no zero byte in front
of it, returns `gpio_state` to the value it had before the first. -/
theorem two_toggles_restore (d : Device) (h : Reachable d) (c1 c2 : Client)
    (hlen1 : c1.request.length ≤ 4096) (htok1 : ToggleBeforeZero c1.request)
    (hlen2 : c2.request.length ≤ 4096) (htok2 : ToggleBeforeZero c2.request) :
    (serve_client c2 (serve_client c1 d).1).1.gpio_state = d.gpio_state := by
  rw [serve_client_of_toggleBeforeZero c2 _ hlen2 htok2,
    serve_client_of_toggleBeforeZero c1 d hlen1 htok1]
  rcases reachable_zero_or_one d h with h0 | h1
  · simp [h0]
  · simp [h1]

theorem two_toggles_restore_witness :
    (serve_client ⟨5, [], bytes "xxtogglexx"⟩
      (serve_client ⟨4, [], bytes "GET /toggle HTTP/1.1\r\n\r\n"⟩ bootDevice).1).1.gpio_state
      = bootDevice.gpio_state :=
  two_toggles_restore bootDevice Reachable.boot
    ⟨4, [], bytes "GET /toggle HTTP/1.1\r\n\r\n"⟩ ⟨5, [], bytes "xxtogglexx"⟩
    (by decide) ⟨bytes "GET /", bytes " HTTP/1.1\r\n\r\n", by decide, by decide⟩
    (by decide) ⟨bytes "xx", bytes "xx", by decide, by decide⟩

/-- C6 fails as stated: "toggle" and a zero byte followed by "toggle" both contain the
token; served one after the other from the initial state they leave `gpio_state` at 1, not
at the 0 it had before. -/
theorem two_toggle_requests_do_not_restore :
    Reachable bootDevice ∧ ContainsToggle (bytes "toggle") ∧
    ContainsToggle ([0] ++ bytes "toggle") ∧
    (serve_client ⟨5, [], [0] ++ bytes "toggle"⟩
      (serve_client ⟨4, [], bytes "toggle"⟩ bootDevice).1).1.gpio_state = 1 ∧
    bootDevice.gpio_state = 0 := by
  refine ⟨Reachable.boot, ⟨[], [], by decide⟩, ⟨[0], [], by decide⟩, by decide, by decide⟩

theorem accept_loop_reachable (cs : List Client) (r : Run) (h : Reachable r.device) :
    Reachable (accept_loop cs r).device := by
  induction cs generalizing r with
  | nil => exact h
  | cons c cs ih =>
    unfold accept_loop
    simp only []
    split_ifs
    · exact h
    · exact ih _ (Reachable.serve c _ h)

theorem tcp_run_server_reachable (net : Net) (d : Device) (h : Reachable d) :
    Reachable (tcp_run_server net d).device := by
  unfold tcp_run_server
  split_ifs
  · exact h
  · exact h
  · exact h
  · exact accept_loop_reachable _ _ h

theorem reachable_lastLevel (d : Device) (h : Reachable d) : lastLevel d = some d.gpio_state := by
  induction h with
  | boot => decide
  | serve c d _ ih => exact serve_client_lastLevel c d ih

/-- C7: in every state reached from the initialisation of `app_main` by serving requests,
`gpio_state` equals the level last written to the LED pin; serving one more request,
through either branch, keeps it so; and so does any run of the server loop from there. -/
theorem gpio_state_mirrors_pin (d : Device) (h : Reachable d) :
    lastLevel d = some d.gpio_state ∧
    (∀ c : Client, lastLevel (serve_client c d).1 = some (serve_client c d).1.gpio_state) ∧
    ∀ net : Net,
      lastLevel (tcp_run_server net d).device = some (tcp_run_server net d).device.gpio_state :=
  ⟨reachable_lastLevel d h, fun c => serve_client_lastLevel c d (reachable_lastLevel d h),
    fun net => reachable_lastLevel _ (tcp_run_server_reachable net d h)⟩

theorem gpio_state_mirrors_pin_witness :
    lastLevel (serve_client ⟨4, [], bytes "GET /toggle HTTP/1.1\r\n\r\n"⟩ bootDevice).1
      = some 1 :=
  (gpio_state_mirrors_pin (serve_client ⟨4, [], bytes "GET /toggle HTTP/1.1\r\n\r\n"⟩ bootDevice).1
    (Reachable.serve _ _ Reachable.boot)).1

/-- C10: in both responses the number the Content-Length header declares is the number of
bytes behind the blank line: 50 for `INDEX_PAGE_RESPONSE`, 0 for `TOGGLE_RESPONSE`; and the
`strlen` bytes that are written are the header section plus that many bytes. -/
theorem content_length_matches_body :
    declaredContentLength (write INDEX_PAGE_RESPONSE) = some 50 ∧
    (body (write INDEX_PAGE_RESPONSE)).map List.length = some 50 ∧
    headerLength (write INDEX_PAGE_RESPONSE) = some 64 ∧
    strlen INDEX_PAGE_RESPONSE = 64 + 50 ∧
    (write INDEX_PAGE_RESPONSE).length = 64 + 50 ∧
    declaredContentLength (write TOGGLE_RESPONSE) = some 0 ∧
    (body (write TOGGLE_RESPONSE)).map List.length = some 0 ∧
    headerLength (write TOGGLE_RESPONSE) = some 35 ∧
    strlen TOGGLE_RESPONSE = 35 + 0 ∧
    (write TOGGLE_RESPONSE).length = 35 + 0 := by
  decide

end WifiLed
